import Mathlib

/-!
Verification of the token acquisition and refresh core of the pixiv-mcp
repository (files `src/auth.py` and `src/token_manager.py`), shallowly
embedded in Lean 4.

Modelling conventions:
* Python `str` is Lean `String`; a possibly-absent value (`None`, unset
  environment variable, missing file) is `Option String`.
* Python byte strings are `List Nat` (one entry per byte).
* Python truthiness of a string (`if token:`) is the test `token ≠ ""`.
* Functions that raise are embedded with `Except`.
* Network responses are an explicit input (`HttpResponse`): the embedding
  models the response-handling code, not the socket.
-/

/-- Python `str.strip()`: remove leading and trailing whitespace. -/
def pyStrip (s : String) : String :=
  ⟨((s.data.dropWhile Char.isWhitespace).reverse.dropWhile Char.isWhitespace).reverse⟩

/-- ASCII lower-casing of one character, as Python `str.lower()` acts on
the ASCII answers compared against in the source. -/
def lowerChar (c : Char) : Char :=
  if 'A' ≤ c ∧ c ≤ 'Z' then Char.ofNat (c.toNat + 32) else c

/-- Python `str.lower()` restricted to ASCII case mapping. -/
def pyLower (s : String) : String := ⟨s.data.map lowerChar⟩

/-- `auth.validate_token_format` (auth.py:543-548):
`if not token or len(token) < 20: return False` then `return True`.
`none` models a Python `None` argument (also falsy). -/
def validate_token_format : Option String → Bool
  | none => false
  | some token => if token = "" ∨ token.length < 20 then false else true

/-- File half of `auth.get_refresh_token` (auth.py:527-532): if the token
file exists, read and strip it; return it when non-empty, otherwise
(and when the file is absent) raise `ValueError`. -/
def get_refresh_token_file (fileStore : Option String) : Except String String :=
  match fileStore with
  | some raw =>
      let token := pyStrip raw
      if token = "" then Except.error "未找到Pixiv refresh token" else Except.ok token
  | none => Except.error "未找到Pixiv refresh token"

/-- `auth.get_refresh_token` (auth.py:520-532): the walrus test
`if token := os.getenv("PIXIV_REFRESH_TOKEN")` takes the environment value
only when it is truthy (set and non-empty); it then returns it stripped.
Otherwise the token file is consulted. -/
def get_refresh_token (env fileStore : Option String) : Except String String :=
  match env with
  | some token =>
      if token = "" then get_refresh_token_file fileStore
      else Except.ok (pyStrip token)
  | none => get_refresh_token_file fileStore

/-- Claim C4: every string of length strictly below 20, as well as the empty
string and the null token, is rejected by the credential format check
regardless of content. -/
theorem C4_short_token_rejected :
    (∀ t : String, t.length < 20 → validate_token_format (some t) = false) ∧
    validate_token_format (some "") = false ∧
    validate_token_format none = false := by
  refine ⟨fun t h => ?_, by decide, rfl⟩
  simp [validate_token_format, Or.inr h]

/-- Witness for C4 at the concrete 5-character input `"tok_x"`. -/
theorem C4_short_token_rejected_witness :
    validate_token_format (some "tok_x") = false :=
  C4_short_token_rejected.1 "tok_x" (by decide)

/-- Claim C10: every string of length at least 20 passes the credential
format check, whatever its content: the check inspects only emptiness and
length. -/
theorem C10_long_token_accepted (t : String) (h : 20 ≤ t.length) :
    validate_token_format (some t) = true := by
  have hne : ¬ t = "" := by
    intro he
    rw [he] at h
    simp at h
  have hlen : ¬ t.length < 20 := by omega
  simp [validate_token_format, hne, hlen]

/-- Witness for C10 at a concrete 20-character input made of whitespace and
punctuation. -/
theorem C10_long_token_accepted_witness :
    validate_token_format (some "    !!##  randomjunk") = true :=
  C10_long_token_accepted "    !!##  randomjunk" (by decide)

/-- Counterexample to claim C1 as stated: with the environment variable set
to the empty string (a set variable in Python), `get_refresh_token` returns
the file-stored value, not the (stripped) environment value. -/
theorem C1_env_precedence_counterexample :
    get_refresh_token (some "") (some "tok_file_12345678901234567890") =
      Except.ok "tok_file_12345678901234567890" ∧
    pyStrip "" ≠ "tok_file_12345678901234567890" := by
  constructor
  · rfl
  · decide

/-- Claim C1 (amended): whenever the environment variable credential is set
to a non-empty string, `get_refresh_token` returns the stripped environment
value, regardless of whether the token file exists or what it contains. -/
theorem C1_env_precedence (env fileStore : Option String) (t : String)
    (hset : env = some t) (hne : t ≠ "") :
    get_refresh_token env fileStore = Except.ok (pyStrip t) := by
  subst hset
  simp [get_refresh_token, hne]

/-- Witness for C1 (amended): env set to a 24-character token while the file
holds a different token; the environment value wins. -/
theorem C1_env_precedence_witness :
    get_refresh_token (some "tok_env_12345678901234567890")
        (some "tok_file_12345678901234567890") =
      Except.ok (pyStrip "tok_env_12345678901234567890") :=
  C1_env_precedence (some "tok_env_12345678901234567890")
    (some "tok_file_12345678901234567890") "tok_env_12345678901234567890"
    rfl (by decide)

/-! ## Token exchange client (auth.py:141-186, 354-383) -/

/-- A token-endpoint HTTP response: status code and JSON body, modelled as
an association list of string fields. An entry absent from `body` models a
JSON object lacking that field. -/
structure HttpResponse where
  status : Nat
  body : List (String × String)
deriving DecidableEq

/-- `requests.Response.raise_for_status`: raises exactly for client error
(4xx) and server error (5xx) status codes. -/
def raise_for_status (r : HttpResponse) : Bool :=
  decide (400 ≤ r.status) && decide (r.status < 600)

/-- `PixivPlaywrightTokenFetcher.exchange_token` (auth.py:141-160): posts the
authorization-code grant; `raise_for_status` errors are caught and an empty
dict is returned, otherwise the parsed JSON body is returned. -/
def exchange_token (resp : HttpResponse) : List (String × String) :=
  if raise_for_status resp then [] else resp.body

/-- `PixivPlaywrightTokenFetcher.get_tokens` (auth.py:162-186), from the
exchange onward (the browser step supplying the code is modelled
separately): an empty exchange result or a falsy `refresh_token` field
yields `None`; otherwise the `(access_token, refresh_token)` pair. -/
def get_tokens (resp : HttpResponse) : Option (Option String × String) :=
  let token_info := exchange_token resp
  if token_info = [] then none
  else
    match token_info.lookup "refresh_token" with
    | none => none
    | some rt => if rt = "" then none else some (token_info.lookup "access_token", rt)

/-- `auth.refresh_existing_token` (auth.py:354-383): response handling of the
refresh grant; any exception (in particular `raise_for_status`) yields
`None`, as does a missing or falsy `refresh_token` field. -/
def refresh_existing_token (resp : HttpResponse) : Option String :=
  if raise_for_status resp then none
  else
    match resp.body.lookup "refresh_token" with
    | none => none
    | some rt => if rt = "" then none else some rt

/-- Counterexample to claim C5 as stated: a non-2xx response (301 redirect
status) whose body carries a `refresh_token` is treated as success by both
the exchange and the refresh operation — `raise_for_status` only raises for
4xx/5xx, so "every non-2xx response" fails. -/
theorem C5_missing_token_fails_counterexample :
    (HttpResponse.mk 301 [("refresh_token", "tok_301_12345678901234567890")]).status / 100 ≠ 2 ∧
    refresh_existing_token
        (HttpResponse.mk 301 [("refresh_token", "tok_301_12345678901234567890")]) =
      some "tok_301_12345678901234567890" ∧
    get_tokens (HttpResponse.mk 301 [("refresh_token", "tok_301_12345678901234567890")]) =
      some (none, "tok_301_12345678901234567890") := by
  refine ⟨by decide, rfl, rfl⟩

/-- Claim C5 (amended): for every response whose JSON body lacks a
`refresh_token` field, and for every 4xx/5xx response, both the
authorization-code exchange and the refresh operation report failure
(`none`); moreover a reported success always carries exactly the body's
`refresh_token`, never a null or missing one. -/
theorem C5_missing_token_fails (resp : HttpResponse) :
    (resp.body.lookup "refresh_token" = none →
      get_tokens resp = none ∧ refresh_existing_token resp = none) ∧
    (400 ≤ resp.status → resp.status < 600 →
      get_tokens resp = none ∧ refresh_existing_token resp = none) ∧
    (∀ a rt, get_tokens resp = some (a, rt) →
      resp.body.lookup "refresh_token" = some rt) := by
  refine ⟨fun hmiss => ?_, fun h4 h6 => ?_, fun a rt hok => ?_⟩
  · unfold get_tokens refresh_existing_token exchange_token
    by_cases hr : raise_for_status resp
    · simp [hr]
    · simp only [hr, if_false, if_neg, Bool.false_eq_true, reduceIte]
      by_cases hb : resp.body = []
      · simp [hb]
      · simp [hb, hmiss]
  · have hr : raise_for_status resp = true := by
      unfold raise_for_status
      simp [h4, h6]
    unfold get_tokens refresh_existing_token exchange_token
    simp [hr]
  · unfold get_tokens exchange_token at hok
    by_cases hr : raise_for_status resp
    · simp [hr] at hok
    · simp only [hr, Bool.false_eq_true, reduceIte] at hok
      by_cases hb : resp.body = []
      · simp [hb] at hok
      · simp only [hb, reduceIte] at hok
        cases hlk : resp.body.lookup "refresh_token" with
        | none => rw [hlk] at hok; simp at hok
        | some rt0 =>
            rw [hlk] at hok
            by_cases h0 : rt0 = ""
            · simp [h0] at hok
            · simp [h0] at hok
              rw [hok.2]

/-! ## Token lifecycle manager (auth.py:481-517, 535-540; token_manager.py:162-180)

`auth.ensure_refresh_token` consults the environment, then the token file,
then offers the interactive `auto_setup_token` flow, and finally prints
remediation instructions and exits with status 1.  The interactive
`auto_setup_token` flow (auth.py:386-478) is driven entirely by operator
input and live browser sessions; the embedding takes its outcome (the
returned token, or `none`) and the number of browser launches it performed
as explicit inputs of the process state `EnsureEnv`, and models the
decision structure of `ensure_refresh_token` itself. -/

/-- One process state seen by `ensure_refresh_token`. -/
structure EnsureEnv where
  envToken : Option String
  fileToken : Option String
  autoSetupAnswer : String
  autoSetupResult : Option String
  autoSetupLaunches : Nat
deriving DecidableEq

/-- How `ensure_refresh_token` terminated. -/
inductive EnsureOutcome
  | ok
  | exited (code : Nat)
deriving DecidableEq

/-- Which acquisition step produced the accepted credential. -/
inductive AcqStep
  | stepEnv
  | stepFile
  | stepAuto
deriving DecidableEq

/-- Observable result of a run of `ensure_refresh_token`: outcome, the step
that satisfied it (if any), how many browser sessions were launched, how
many times the operator was prompted by this function, whether the manual
remediation instructions were printed, and the value written to the token
file (if any). -/
structure EnsureResult where
  outcome : EnsureOutcome
  via : Option AcqStep
  browserLaunches : Nat
  prompts : Nat
  printedRemediation : Bool
  fileWrite : Option String
deriving DecidableEq

/-- Normalisation `input(...).lower().strip()` applied to the operator's
answer at auth.py:497. -/
def answerNorm (s : String) : String := pyStrip (pyLower s)

/-- The test `auto_setup in ['y', 'yes', '']` (auth.py:499). -/
def autoSetupAccepted (w : EnsureEnv) : Bool :=
  let ans := answerNorm w.autoSetupAnswer
  ans = "y" || ans = "yes" || ans = ""

/-- The file-token acceptance test `if token and validate_token_format(token)`
(auth.py:490) applied to the raw file content. -/
def fileTokenOk (raw : String) : Bool :=
  let token := pyStrip raw
  decide (token ≠ "") && validate_token_format (some token)

/-- Steps 3-4 of `auth.ensure_refresh_token` (auth.py:495-517): prompt for
automatic configuration; on acceptance run `auto_setup_token` and, when it
yields a token, persist it via `setup_token_file` and return; otherwise
print the manual remediation instructions and `sys.exit(1)`. -/
def ensure_step3 (w : EnsureEnv) : EnsureResult :=
  if autoSetupAccepted w then
    match w.autoSetupResult with
    | some token =>
        { outcome := EnsureOutcome.ok, via := some AcqStep.stepAuto,
          browserLaunches := w.autoSetupLaunches, prompts := 1,
          printedRemediation := false, fileWrite := some (pyStrip token) }
    | none =>
        { outcome := EnsureOutcome.exited 1, via := none,
          browserLaunches := w.autoSetupLaunches, prompts := 1,
          printedRemediation := true, fileWrite := none }
  else
    { outcome := EnsureOutcome.exited 1, via := none,
      browserLaunches := 0, prompts := 1,
      printedRemediation := true, fileWrite := none }

/-- Step 2 of `auth.ensure_refresh_token` (auth.py:487-493): if the token
file exists, accept its stripped content when non-empty and well-formed;
otherwise fall through to the interactive steps. -/
def ensure_fileStep (w : EnsureEnv) : EnsureResult :=
  match w.fileToken with
  | some raw =>
      if fileTokenOk raw then
        { outcome := EnsureOutcome.ok, via := some AcqStep.stepFile,
          browserLaunches := 0, prompts := 0,
          printedRemediation := false, fileWrite := none }
      else ensure_step3 w
  | none => ensure_step3 w

/-- `auth.ensure_refresh_token` (auth.py:481-517): step 1 returns as soon as
`os.getenv("PIXIV_REFRESH_TOKEN")` is truthy — with no format check — then
steps 2-4 follow. -/
def ensure_refresh_token (w : EnsureEnv) : EnsureResult :=
  match w.envToken with
  | some t =>
      if t = "" then ensure_fileStep w
      else
        { outcome := EnsureOutcome.ok, via := some AcqStep.stepEnv,
          browserLaunches := 0, prompts := 0,
          printedRemediation := false, fileWrite := none }
  | none => ensure_fileStep w

/-- `auth.setup_token_file` (auth.py:535-540): `TOKEN_FILE.write_text(token.strip())`
replaces the whole file content, whatever was stored before. -/
def setup_token_file (token : String) (_prev : Option String) : Option String :=
  some (pyStrip token)

/-- `token_manager.cmd_refresh` (token_manager.py:162-180): read the current
token (any raise is caught and yields failure), call
`refresh_existing_token`, and on success persist the new token with
`setup_token_file`.  Returns the success flag and the resulting token-file
state. -/
def cmd_refresh (env fileStore : Option String) (resp : HttpResponse) :
    Bool × Option String :=
  match get_refresh_token env fileStore with
  | Except.error _ => (false, fileStore)
  | Except.ok _current =>
      match refresh_existing_token resp with
      | some newToken => (true, setup_token_file newToken fileStore)
      | none => (false, fileStore)

/-- Counterexample to claim C2 as stated: the environment credential
`"short"` fails the format check, yet step 1 of `ensure_refresh_token`
accepts it and returns immediately. -/
theorem C2_step1_format_check_counterexample :
    (ensure_refresh_token
        { envToken := some "short", fileToken := none, autoSetupAnswer := "n",
          autoSetupResult := none, autoSetupLaunches := 0 }).outcome = EnsureOutcome.ok ∧
    (ensure_refresh_token
        { envToken := some "short", fileToken := none, autoSetupAnswer := "n",
          autoSetupResult := none, autoSetupLaunches := 0 }).via = some AcqStep.stepEnv ∧
    validate_token_format (some "short") = false := by
  refine ⟨rfl, rfl, by decide⟩

/-! Equation lemmas for the branches of `ensure_refresh_token`, shared by the
claims about the lifecycle manager. -/

theorem ensure_env_none (w : EnsureEnv) (h : w.envToken = none) :
    ensure_refresh_token w = ensure_fileStep w := by
  unfold ensure_refresh_token
  rw [h]

theorem ensure_env_empty (w : EnsureEnv) (h : w.envToken = some "") :
    ensure_refresh_token w = ensure_fileStep w := by
  unfold ensure_refresh_token
  rw [h]
  simp

theorem ensure_env_ok (w : EnsureEnv) (t : String) (h : w.envToken = some t)
    (ht : t ≠ "") :
    ensure_refresh_token w =
      { outcome := EnsureOutcome.ok, via := some AcqStep.stepEnv,
        browserLaunches := 0, prompts := 0,
        printedRemediation := false, fileWrite := none } := by
  unfold ensure_refresh_token
  rw [h]
  simp [ht]

theorem ensure_file_none (w : EnsureEnv) (h : w.fileToken = none) :
    ensure_fileStep w = ensure_step3 w := by
  unfold ensure_fileStep
  rw [h]

theorem ensure_file_bad (w : EnsureEnv) (raw : String) (h : w.fileToken = some raw)
    (hb : fileTokenOk raw = false) :
    ensure_fileStep w = ensure_step3 w := by
  unfold ensure_fileStep
  rw [h]
  simp [hb]

theorem ensure_file_ok (w : EnsureEnv) (raw : String) (h : w.fileToken = some raw)
    (hb : fileTokenOk raw = true) :
    ensure_fileStep w =
      { outcome := EnsureOutcome.ok, via := some AcqStep.stepFile,
        browserLaunches := 0, prompts := 0,
        printedRemediation := false, fileWrite := none } := by
  unfold ensure_fileStep
  rw [h]
  simp [hb]

theorem step3_declined (w : EnsureEnv) (h : autoSetupAccepted w = false) :
    ensure_step3 w =
      { outcome := EnsureOutcome.exited 1, via := none,
        browserLaunches := 0, prompts := 1,
        printedRemediation := true, fileWrite := none } := by
  unfold ensure_step3
  simp [h]

theorem step3_accepted_some (w : EnsureEnv) (t : String)
    (ha : autoSetupAccepted w = true) (h : w.autoSetupResult = some t) :
    ensure_step3 w =
      { outcome := EnsureOutcome.ok, via := some AcqStep.stepAuto,
        browserLaunches := w.autoSetupLaunches, prompts := 1,
        printedRemediation := false, fileWrite := some (pyStrip t) } := by
  unfold ensure_step3
  rw [ha, h]
  simp

theorem step3_accepted_none (w : EnsureEnv)
    (ha : autoSetupAccepted w = true) (h : w.autoSetupResult = none) :
    ensure_step3 w =
      { outcome := EnsureOutcome.exited 1, via := none,
        browserLaunches := w.autoSetupLaunches, prompts := 1,
        printedRemediation := true, fileWrite := none } := by
  unfold ensure_step3
  rw [ha, h]
  simp

/-- The step-3 result never reports `stepEnv` or `stepFile` as its source. -/
theorem step3_via (w : EnsureEnv) :
    (ensure_step3 w).via = some AcqStep.stepAuto ∨ (ensure_step3 w).via = none := by
  by_cases ha : autoSetupAccepted w
  · cases hr : w.autoSetupResult with
    | some t => rw [step3_accepted_some w t ha hr]; left; rfl
    | none => rw [step3_accepted_none w ha hr]; right; rfl
  · rw [step3_declined w (by simpa using ha)]
    right
    rfl

/-- Claim C2 (amended): in the lifecycle manager's first acquisition step,
the file-stored credential is accepted exactly when the environment yields
nothing usable, the file is present, and its stripped content is non-empty
and passes the format check; the environment credential is accepted exactly
when it is present and non-empty — the format check is not applied to it. -/
theorem C2_step1_acceptance (w : EnsureEnv) :
    ((ensure_refresh_token w).via = some AcqStep.stepEnv ↔
      ∃ t, w.envToken = some t ∧ t ≠ "") ∧
    ((ensure_refresh_token w).via = some AcqStep.stepFile ↔
      (∀ t, w.envToken = some t → t = "") ∧
      ∃ raw, w.fileToken = some raw ∧ pyStrip raw ≠ "" ∧
        validate_token_format (some (pyStrip raw)) = true) := by
  have hfileNoEnv : (ensure_fileStep w).via = some AcqStep.stepEnv → False := by
    intro h
    cases hf : w.fileToken with
    | none =>
        rw [ensure_file_none w hf] at h
        rcases step3_via w with h3 | h3 <;> rw [h3] at h <;> simp at h
    | some raw =>
        cases hb : fileTokenOk raw with
        | false =>
            rw [ensure_file_bad w raw hf hb] at h
            rcases step3_via w with h3 | h3 <;> rw [h3] at h <;> simp at h
        | true =>
            rw [ensure_file_ok w raw hf hb] at h
            simp at h
  have hfileIff : (ensure_fileStep w).via = some AcqStep.stepFile ↔
      ∃ raw, w.fileToken = some raw ∧ pyStrip raw ≠ "" ∧
        validate_token_format (some (pyStrip raw)) = true := by
    constructor
    · intro h
      cases hf : w.fileToken with
      | none =>
          rw [ensure_file_none w hf] at h
          rcases step3_via w with h3 | h3 <;> rw [h3] at h <;> simp at h
      | some raw =>
          cases hb : fileTokenOk raw with
          | false =>
              rw [ensure_file_bad w raw hf hb] at h
              rcases step3_via w with h3 | h3 <;> rw [h3] at h <;> simp at h
          | true =>
              have hb2 := hb
              unfold fileTokenOk at hb2
              simp only [Bool.and_eq_true, decide_eq_true_eq] at hb2
              exact ⟨raw, rfl, hb2.1, hb2.2⟩
    · rintro ⟨raw, hf, hne, hv⟩
      have hok : fileTokenOk raw = true := by
        unfold fileTokenOk
        simp only [Bool.and_eq_true, decide_eq_true_eq]
        exact ⟨hne, hv⟩
      rw [ensure_file_ok w raw hf hok]
  cases he : w.envToken with
  | none =>
      rw [ensure_env_none w he]
      constructor
      · constructor
        · intro h
          exact (hfileNoEnv h).elim
        · rintro ⟨t, ht, -⟩
          exact Option.noConfusion ht
      · constructor
        · intro h
          exact ⟨fun t hh => Option.noConfusion hh, hfileIff.mp h⟩
        · rintro ⟨-, hex⟩
          exact hfileIff.mpr hex
  | some t =>
      by_cases ht : t = ""
      · subst ht
        rw [ensure_env_empty w he]
        constructor
        · constructor
          · intro h
            exact (hfileNoEnv h).elim
          · rintro ⟨t1, h1, hne1⟩
            injection h1 with h2
            exact absurd h2.symm hne1
        · constructor
          · intro h
            refine ⟨fun t1 hh => ?_, hfileIff.mp h⟩
            injection hh with h2
            exact h2.symm
          · rintro ⟨-, hex⟩
            exact hfileIff.mpr hex
      · rw [ensure_env_ok w t he ht]
        constructor
        · constructor
          · intro _
            exact ⟨t, rfl, ht⟩
          · intro _
            rfl
        · constructor
          · intro h
            simp at h
          · rintro ⟨hall, -⟩
            exact absurd (hall t rfl) ht

/-- Witness for C2 (amended): a present, non-empty 7-character environment
credential — one that fails the format check — is accepted by step 1, via
the sufficiency direction of the theorem. -/
theorem C2_step1_acceptance_witness :
    (ensure_refresh_token (EnsureEnv.mk (some "env_tok") none "n" none 0)).via =
      some AcqStep.stepEnv :=
  (C2_step1_acceptance (EnsureEnv.mk (some "env_tok") none "n" none 0)).1.mpr
    ⟨"env_tok", rfl, by decide⟩

/-- Claim C7: whenever a cached credential is present and passes the format
check — in the environment or in the token file — the startup check returns
successfully with zero browser launches and without prompting the
operator. -/
theorem C7_cached_token_no_browser (w : EnsureEnv)
    (h : (∃ t, w.envToken = some t ∧ validate_token_format (some t) = true) ∨
         (∃ raw, w.fileToken = some raw ∧
            validate_token_format (some (pyStrip raw)) = true)) :
    (ensure_refresh_token w).outcome = EnsureOutcome.ok ∧
    (ensure_refresh_token w).browserLaunches = 0 ∧
    (ensure_refresh_token w).prompts = 0 := by
  have hvalid_ne : ∀ s : String, validate_token_format (some s) = true → s ≠ "" := by
    intro s hv hs
    rw [hs] at hv
    simp [validate_token_format] at hv
  rcases h with ⟨t, he, hv⟩ | ⟨raw, hf, hv⟩
  · rw [ensure_env_ok w t he (hvalid_ne t hv)]
    exact ⟨rfl, rfl, rfl⟩
  · have hok : fileTokenOk raw = true := by
      unfold fileTokenOk
      simp only [Bool.and_eq_true, decide_eq_true_eq]
      exact ⟨hvalid_ne _ hv, hv⟩
    cases he : w.envToken with
    | none =>
        rw [ensure_env_none w he, ensure_file_ok w raw hf hok]
        exact ⟨rfl, rfl, rfl⟩
    | some t =>
        by_cases ht : t = ""
        · rw [ht] at he
          rw [ensure_env_empty w he, ensure_file_ok w raw hf hok]
          exact ⟨rfl, rfl, rfl⟩
        · rw [ensure_env_ok w t he ht]
          exact ⟨rfl, rfl, rfl⟩

/-- Witness for C7: a valid 28-character file token and no environment
token; the manager returns at step 2 with no browser launch and no
prompt. -/
theorem C7_cached_token_no_browser_witness :
    (ensure_refresh_token
        (EnsureEnv.mk none (some "tok_file_12345678901234567890") "y"
          (some "tok_auto_12345678901234567890") 3)).outcome = EnsureOutcome.ok ∧
    (ensure_refresh_token
        (EnsureEnv.mk none (some "tok_file_12345678901234567890") "y"
          (some "tok_auto_12345678901234567890") 3)).browserLaunches = 0 ∧
    (ensure_refresh_token
        (EnsureEnv.mk none (some "tok_file_12345678901234567890") "y"
          (some "tok_auto_12345678901234567890") 3)).prompts = 0 :=
  C7_cached_token_no_browser
    (EnsureEnv.mk none (some "tok_file_12345678901234567890") "y"
      (some "tok_auto_12345678901234567890") 3)
    (Or.inr ⟨"tok_file_12345678901234567890", rfl, by decide⟩)

/-- The environment credential seen by `ensure_refresh_token` is falsy
(unset or empty). -/
def envNotTruthy (w : EnsureEnv) : Bool :=
  match w.envToken with
  | none => true
  | some t => t = ""

/-- The token-file step of `ensure_refresh_token` does not accept
(file absent, or its stripped content empty or ill-formed). -/
def fileStepRejects (w : EnsureEnv) : Bool :=
  match w.fileToken with
  | none => true
  | some raw => !fileTokenOk raw

/-- Claim C8: when the environment holds no usable credential, the token
file holds none, and the automatic path is exhausted (the operator declines
it, or it produces no token), `ensure_refresh_token` prints the manual
remediation instructions and terminates the process with exit status 1. -/
theorem C8_exhaustion_exits_nonzero (w : EnsureEnv)
    (henv : envNotTruthy w = true)
    (hfile : fileStepRejects w = true)
    (hexhaust : autoSetupAccepted w = false ∨ w.autoSetupResult = none) :
    (ensure_refresh_token w).outcome = EnsureOutcome.exited 1 ∧
    (ensure_refresh_token w).printedRemediation = true := by
  have hstep3 : (ensure_step3 w).outcome = EnsureOutcome.exited 1 ∧
      (ensure_step3 w).printedRemediation = true := by
    rcases hexhaust with hd | hn
    · rw [step3_declined w hd]
      exact ⟨rfl, rfl⟩
    · by_cases ha : autoSetupAccepted w
      · rw [step3_accepted_none w ha hn]
        exact ⟨rfl, rfl⟩
      · rw [step3_declined w (by simpa using ha)]
        exact ⟨rfl, rfl⟩
  have hfs : ensure_fileStep w = ensure_step3 w := by
    unfold fileStepRejects at hfile
    cases hf : w.fileToken with
    | none => exact ensure_file_none w hf
    | some raw =>
        rw [hf] at hfile
        simp only [Bool.not_eq_true'] at hfile
        exact ensure_file_bad w raw hf hfile
  unfold envNotTruthy at henv
  cases he : w.envToken with
  | none =>
      rw [ensure_env_none w he, hfs]
      exact hstep3
  | some t =>
      rw [he] at henv
      simp only [decide_eq_true_eq] at henv
      rw [henv] at he
      rw [ensure_env_empty w he, hfs]
      exact hstep3

/-- Witness for C8: nothing cached and the operator declines automatic
setup; the manager prints remediation and exits with status 1. -/
theorem C8_exhaustion_exits_nonzero_witness :
    (ensure_refresh_token (EnsureEnv.mk none none "n" none 0)).outcome =
      EnsureOutcome.exited 1 ∧
    (ensure_refresh_token (EnsureEnv.mk none none "n" none 0)).printedRemediation =
      true :=
  C8_exhaustion_exits_nonzero (EnsureEnv.mk none none "n" none 0)
    (by decide) (by decide) (Or.inl (by decide))

/-- Claim C9: after a successful refresh (`cmd_refresh`) the newly issued
token — an opaque string, unchanged by stripping — is written to the
credential store, replacing whatever was stored before; and the successful
automatic acquisition path of `ensure_refresh_token` likewise persists the
newly acquired token.  In both cases the store afterwards holds exactly the
new token, whatever its prior content. -/
theorem C9_rotation_persists :
    (∀ (env fileStore : Option String) (resp : HttpResponse) (cur t : String),
      get_refresh_token env fileStore = Except.ok cur →
      refresh_existing_token resp = some t →
      pyStrip t = t →
      cmd_refresh env fileStore resp = (true, some t)) ∧
    (∀ (w : EnsureEnv) (t : String),
      envNotTruthy w = true →
      fileStepRejects w = true →
      autoSetupAccepted w = true →
      w.autoSetupResult = some t →
      pyStrip t = t →
      (ensure_refresh_token w).fileWrite = some t ∧
      (ensure_refresh_token w).outcome = EnsureOutcome.ok) := by
  constructor
  · intro env fileStore resp cur t hcur href hstrip
    unfold cmd_refresh
    rw [hcur, href]
    show (true, some (pyStrip t)) = (true, some t)
    rw [hstrip]
  · intro w t henv hfile ha hr hstrip
    have hfs : ensure_fileStep w = ensure_step3 w := by
      unfold fileStepRejects at hfile
      cases hf : w.fileToken with
      | none => exact ensure_file_none w hf
      | some raw =>
          rw [hf] at hfile
          simp only [Bool.not_eq_true'] at hfile
          exact ensure_file_bad w raw hf hfile
    have h3 := step3_accepted_some w t ha hr
    unfold envNotTruthy at henv
    cases he : w.envToken with
    | none =>
        rw [ensure_env_none w he, hfs, h3]
        exact ⟨by rw [hstrip], rfl⟩
    | some s =>
        rw [he] at henv
        simp only [decide_eq_true_eq] at henv
        rw [henv] at he
        rw [ensure_env_empty w he, hfs, h3]
        exact ⟨by rw [hstrip], rfl⟩

/-- Witness for C9: a refresh succeeding with a fresh token overwrites a
different previously stored token. -/
theorem C9_rotation_persists_witness :
    cmd_refresh none (some "tok_old_12345678901234567890")
        (HttpResponse.mk 200 [("refresh_token", "tok_new_12345678901234567890")]) =
      (true, some "tok_new_12345678901234567890") :=
  C9_rotation_persists.1 none (some "tok_old_12345678901234567890")
    (HttpResponse.mk 200 [("refresh_token", "tok_new_12345678901234567890")])
    "tok_old_12345678901234567890" "tok_new_12345678901234567890"
    rfl rfl (by decide)

/-! ## Browser-driven authorization session (auth.py:80-139) -/

/-- Errors the Playwright wait can raise; only `timeoutError` is caught by
the `except TimeoutError` clause at auth.py:136. -/
inductive PwError
  | timeoutError
  | otherError
deriving DecidableEq

/-- `page.wait_for_event("close", timeout=100000)` (auth.py:135): raises
`TimeoutError` when the timeout elapses before the page closes. -/
def wait_for_event_close (timedOut : Bool) : Except PwError Unit :=
  if timedOut then Except.error PwError.timeoutError else Except.ok ()

/-- Which of the session's resources have been closed. -/
structure Teardown where
  pageClosed : Bool
  contextClosed : Bool
  browserClosed : Bool
deriving DecidableEq

/-- `cleanup_and_return` (auth.py:102-116): closes page, context and browser
(each close guarded by its own exception swallow) and passes the captured
code through. -/
def cleanup_and_return (code : Option String) : Option String × Teardown :=
  (code, { pageClosed := true, contextClosed := true, browserClosed := true })

/-- The wait-and-return tail of `PixivPlaywrightTokenFetcher.fetch_code`
(auth.py:134-139), after navigation and login: wait for the page to close,
catching only `TimeoutError`, then `return cleanup_and_return(captured_code["value"])`.
`captured` is the value the network listener stored (if any).  An uncaught
error would propagate without running `cleanup_and_return`. -/
def fetch_code_wait (captured : Option String) (timedOut : Bool) :
    Except PwError (Option String) × Teardown :=
  match wait_for_event_close timedOut with
  | Except.ok _ =>
      let r := cleanup_and_return captured
      (Except.ok r.1, r.2)
  | Except.error PwError.timeoutError =>
      let r := cleanup_and_return captured
      (Except.ok r.1, r.2)
  | Except.error PwError.otherError =>
      (Except.error PwError.otherError,
       { pageClosed := false, contextClosed := false, browserClosed := false })

/-- Claim C6: when the code-capture wait times out with no authorization
code captured, `fetch_code` returns the absence-of-code value to its caller
— the timeout exception does not escape — and page, context and browser
have all been closed on that exit path. -/
theorem C6_timeout_returns_none_with_teardown
    (captured : Option String) (timedOut : Bool)
    (hc : captured = none) (ht : timedOut = true) :
    fetch_code_wait captured timedOut =
      (Except.ok none,
       { pageClosed := true, contextClosed := true, browserClosed := true }) := by
  subst hc ht
  rfl

/-- Witness for C6 at the concrete timed-out, nothing-captured state. -/
theorem C6_timeout_returns_none_with_teardown_witness :
    fetch_code_wait none true =
      (Except.ok none,
       { pageClosed := true, contextClosed := true, browserClosed := true }) :=
  C6_timeout_returns_none_with_teardown none true rfl rfl

/-- Witness for C5 (amended) at a concrete 400 response with empty body. -/
theorem C5_missing_token_fails_witness :
    get_tokens (HttpResponse.mk 400 []) = none ∧
    refresh_existing_token (HttpResponse.mk 400 []) = none :=
  (C5_missing_token_fails (HttpResponse.mk 400 [])).2.1 (by decide) (by decide)

/-! ## PKCE challenge generator (auth.py:40-43)

`PixivPlaywrightTokenFetcher.__init__` computes
`base64.urlsafe_b64encode(hashlib.sha256(verifier.encode()).digest()).rstrip(b'=')`.
The library calls are embedded below: SHA-256 in full over byte lists, the
padded url-safe base64 encoder, and the `rstrip(b'=')` suffix strip. -/

/-- 32-bit truncation. -/
def w32 (x : Nat) : Nat := x % 4294967296

/-- 32-bit right rotation (arguments already below 2^32). -/
def rotr32 (n x : Nat) : Nat := w32 ((x >>> n) ||| (x <<< (32 - n)))

/-- SHA-256 round constants. -/
def sha256K : List Nat :=
  [1116352408, 1899447441, 3049323471, 3921009573, 961987163,
   1508970993, 2453635748, 2870763221, 3624381080, 310598401,
   607225278, 1426881987, 1925078388, 2162078206, 2614888103,
   3248222580, 3835390401, 4022224774, 264347078, 604807628,
   770255983, 1249150122, 1555081692, 1996064986, 2554220882,
   2821834349, 2952996808, 3210313671, 3336571891, 3584528711,
   113926993, 338241895, 666307205, 773529912, 1294757372,
   1396182291, 1695183700, 1986661051, 2177026350, 2456956037,
   2730485921, 2820302411, 3259730800, 3345764771, 3516065817,
   3600352804, 4094571909, 275423344, 430227734, 506948616,
   659060556, 883997877, 958139571, 1322822218, 1537002063,
   1747873779, 1955562222, 2024104815, 2227730452, 2361852424,
   2428436474, 2756734187, 3204031479, 3329325298]

/-- SHA-256 initial hash value. -/
def shaH0 : List Nat :=
  [1779033703, 3144134277, 1013904242,
   2773480762, 1359893119, 2600822924,
   528734635, 1541459225]

def smallSigma0 (x : Nat) : Nat := rotr32 7 x ^^^ rotr32 18 x ^^^ (x >>> 3)

def smallSigma1 (x : Nat) : Nat := rotr32 17 x ^^^ rotr32 19 x ^^^ (x >>> 10)

def bigSigma0 (x : Nat) : Nat := rotr32 2 x ^^^ rotr32 13 x ^^^ rotr32 22 x

def bigSigma1 (x : Nat) : Nat := rotr32 6 x ^^^ rotr32 11 x ^^^ rotr32 25 x

/-- Extend the 16 block words to the 64-word message schedule. -/
def sha256Schedule (blk : List Nat) : List Nat :=
  (List.range 48).foldl
    (fun ws _ =>
      let n := ws.length
      ws ++ [w32 (ws.getD (n - 16) 0 + smallSigma0 (ws.getD (n - 15) 0) +
                  ws.getD (n - 7) 0 + smallSigma1 (ws.getD (n - 2) 0))])
    blk

/-- One SHA-256 compression round on the working state `[a,b,c,d,e,f,g,h]`. -/
def sha256Round (k wi : Nat) (s : List Nat) : List Nat :=
  match s with
  | [a, b, c, d, e, f, g, h] =>
      let ch := (e &&& f) ^^^ ((e ^^^ 4294967295) &&& g)
      let t1 := w32 (h + bigSigma1 e + ch + k + wi)
      let maj := (a &&& b) ^^^ (a &&& c) ^^^ (b &&& c)
      let t2 := w32 (bigSigma0 a + maj)
      [w32 (t1 + t2), a, b, c, w32 (d + t1), e, f, g]
  | s => s

/-- Compress one 16-word block into the running hash value. -/
def sha256Compress (H blk : List Nat) : List Nat :=
  let ws := sha256Schedule blk
  let s := (sha256K.zip ws).foldl (fun st kw => sha256Round kw.1 kw.2 st) H
  List.zipWith (fun x y => w32 (x + y)) H s

/-- The 8-byte big-endian bit-length trailer of SHA-256 padding. -/
def lenBytes64 (n : Nat) : List Nat :=
  [n / 72057594037927936 % 256, n / 281474976710656 % 256,
   n / 1099511627776 % 256, n / 4294967296 % 256,
   n / 16777216 % 256, n / 65536 % 256, n / 256 % 256, n % 256]

/-- SHA-256 message padding: append `0x80`, zeros to 56 mod 64, then the
bit length. -/
def sha256Pad (ms : List Nat) : List Nat :=
  ms ++ 128 :: (List.replicate ((119 - ms.length % 64) % 64) 0 ++ lenBytes64 (8 * ms.length))

/-- Big-endian 4-byte grouping. -/
def bytesToWords : List Nat → List Nat
  | b1 :: b2 :: b3 :: b4 :: rest =>
      (b1 * 16777216 + b2 * 65536 + b3 * 256 + b4) :: bytesToWords rest
  | _ => []

/-- Split a byte list into 64-byte chunks. -/
def chunks64 (bs : List Nat) : List (List Nat) :=
  if hb : bs = [] then [] else bs.take 64 :: chunks64 (bs.drop 64)
termination_by bs.length
decreasing_by
  have hlen : bs.length ≠ 0 := fun hl => hb (List.length_eq_zero.mp hl)
  simp only [List.length_drop]
  omega

/-- Big-endian bytes of one hash word. -/
def wordToBytes (w : Nat) : List Nat :=
  [w / 16777216 % 256, w / 65536 % 256, w / 256 % 256, w % 256]

/-- `hashlib.sha256(...).digest()` over a byte list. -/
def sha256 (ms : List Nat) : List Nat :=
  let H := (chunks64 (sha256Pad ms)).foldl
    (fun acc blk => sha256Compress acc (bytesToWords blk)) shaH0
  (H.map wordToBytes).flatten

/-- The url-safe base64 alphabet (RFC 4648 `-` and `_` variants). -/
def b64chars : List Char :=
  ['A', 'B', 'C', 'D', 'E', 'F', 'G', 'H', 'I', 'J', 'K', 'L', 'M',
   'N', 'O', 'P', 'Q', 'R', 'S', 'T', 'U', 'V', 'W', 'X', 'Y', 'Z',
   'a', 'b', 'c', 'd', 'e', 'f', 'g', 'h', 'i', 'j', 'k', 'l', 'm',
   'n', 'o', 'p', 'q', 'r', 's', 't', 'u', 'v', 'w', 'x', 'y', 'z',
   '0', '1', '2', '3', '4', '5', '6', '7', '8', '9', '-', '_']

/-- Alphabet character of a 6-bit group (indices are below 64 on byte
input; the `% 64` makes that a total-function invariant). -/
def b64char (n : Nat) : Char := b64chars.getD (n % 64) '?'

/-- `base64.urlsafe_b64encode`: padded url-safe base64 of a byte list. -/
def urlsafe_b64encode : List Nat → List Char
  | [] => []
  | [b1] => [b64char (b1 / 4), b64char (b1 % 4 * 16), '=', '=']
  | [b1, b2] =>
      [b64char (b1 / 4), b64char (b1 % 4 * 16 + b2 / 16), b64char (b2 % 16 * 4), '=']
  | b1 :: b2 :: b3 :: rest =>
      b64char (b1 / 4) :: b64char (b1 % 4 * 16 + b2 / 16) ::
      b64char (b2 % 16 * 4 + b3 / 64) :: b64char (b3 % 64) :: urlsafe_b64encode rest

/-- Modelled from the spec: `base64url_nopad`, the url-safe base64 encoding
written without any padding characters ("base64url-encoded, no padding"). -/
def base64url_nopad : List Nat → List Char
  | [] => []
  | [b1] => [b64char (b1 / 4), b64char (b1 % 4 * 16)]
  | [b1, b2] =>
      [b64char (b1 / 4), b64char (b1 % 4 * 16 + b2 / 16), b64char (b2 % 16 * 4)]
  | b1 :: b2 :: b3 :: rest =>
      b64char (b1 / 4) :: b64char (b1 % 4 * 16 + b2 / 16) ::
      b64char (b2 % 16 * 4 + b3 / 64) :: b64char (b3 % 64) :: base64url_nopad rest

/-- The trailing-pad predicate of `rstrip(b'=')`. -/
def isPadChar (c : Char) : Bool := c = '='

/-- `bytes.rstrip(b'=')`: drop every trailing `=`. -/
def rstripEq (cs : List Char) : List Char :=
  (cs.reverse.dropWhile isPadChar).reverse

/-- UTF-8 bytes of a string (`str.encode()`). -/
def strBytes (s : String) : List Nat := s.toUTF8.toList.map (fun b => b.toNat)

/-- The `code_challenge` computed by `PixivPlaywrightTokenFetcher.__init__`
(auth.py:41-43) from the verifier string. -/
def pkce_code_challenge (verifier : String) : List Char :=
  rstripEq (urlsafe_b64encode (sha256 (strBytes verifier)))


/-- Number of `=` padding characters base64 appends for a given byte
length. -/
def b64padCount (n : Nat) : Nat := (3 - n % 3) % 3

/-- No base64 alphabet character is the padding character. -/
theorem b64char_ne (n : Nat) : b64char n ≠ '=' := by
  have h : n % 64 < 64 := Nat.mod_lt _ (by norm_num)
  show b64chars.getD (n % 64) '?' ≠ '='
  revert h
  generalize n % 64 = m
  intro h
  exact (by decide : ∀ m, m < 64 → b64chars.getD m '?' ≠ '=') m h

/-- The padded encoder is the pad-free encoder followed by the padding
characters that complete the final group. -/
theorem urlsafe_eq_nopad_append :
    ∀ bs : List Nat,
      urlsafe_b64encode bs =
        base64url_nopad bs ++ List.replicate (b64padCount bs.length) '='
  | [] => rfl
  | [_] => rfl
  | [_, _] => rfl
  | b1 :: b2 :: b3 :: rest => by
      have ih := urlsafe_eq_nopad_append rest
      have h3 : b64padCount (rest.length + 1 + 1 + 1) = b64padCount rest.length := by
        unfold b64padCount
        have : (rest.length + 1 + 1 + 1) % 3 = rest.length % 3 := by omega
        rw [this]
      simp only [urlsafe_b64encode, base64url_nopad, ih, List.length_cons, h3,
        List.cons_append]

/-- Every character the pad-free encoder emits differs from `=`. -/
theorem mem_nopad_ne : ∀ (bs : List Nat) (c : Char), c ∈ base64url_nopad bs → c ≠ '='
  | [], c, h => by simp [base64url_nopad] at h
  | [b1], c, h => by
      simp only [base64url_nopad, List.mem_cons, List.not_mem_nil, or_false] at h
      rcases h with h | h <;> (subst h; exact b64char_ne _)
  | [b1, b2], c, h => by
      simp only [base64url_nopad, List.mem_cons, List.not_mem_nil, or_false] at h
      rcases h with h | h | h <;> (subst h; exact b64char_ne _)
  | b1 :: b2 :: b3 :: rest, c, h => by
      simp only [base64url_nopad, List.mem_cons] at h
      rcases h with h | h | h | h | h
      · subst h; exact b64char_ne _
      · subst h; exact b64char_ne _
      · subst h; exact b64char_ne _
      · subst h; exact b64char_ne _
      · exact mem_nopad_ne rest c h

/-- `dropWhile` consumes a leading block of padding characters. -/
theorem dropWhile_pad_replicate :
    ∀ (k : Nat) (ys : List Char),
      (List.replicate k '=' ++ ys).dropWhile isPadChar = ys.dropWhile isPadChar
  | 0, _ => rfl
  | k + 1, ys => by
      simp only [List.replicate_succ, List.cons_append,
        List.dropWhile_cons_of_pos (show isPadChar '=' = true from rfl)]
      exact dropWhile_pad_replicate k ys

/-- `dropWhile isPadChar` is the identity on a list free of `=`. -/
theorem dropWhile_pad_of_ne (ys : List Char) (h : ∀ c ∈ ys, c ≠ '=') :
    ys.dropWhile isPadChar = ys := by
  cases ys with
  | nil => rfl
  | cons a t =>
      have ha : ¬ isPadChar a = true := by
        unfold isPadChar
        simp [h a (List.mem_cons_self a t)]
      rw [List.dropWhile_cons_of_neg ha]

/-- Stripping trailing `=` from a pad-free prefix followed by padding
restores the prefix. -/
theorem rstrip_append_replicate (xs : List Char) (k : Nat)
    (h : ∀ c ∈ xs, c ≠ '=') :
    rstripEq (xs ++ List.replicate k '=') = xs := by
  unfold rstripEq
  rw [List.reverse_append, List.reverse_replicate,
    dropWhile_pad_replicate k xs.reverse,
    dropWhile_pad_of_ne _ (fun c hc => h c (List.mem_reverse.mp hc)),
    List.reverse_reverse]

/-- Claim C3: for every PKCE verifier, the challenge computed by the token
fetcher — padded url-safe base64 of the SHA-256 digest of the verifier's
byte encoding, with the padding stripped — equals the no-padding base64url
encoding of that digest. -/
theorem C3_challenge_is_b64url_nopad_sha256 (verifier : String) :
    pkce_code_challenge verifier = base64url_nopad (sha256 (strBytes verifier)) := by
  unfold pkce_code_challenge
  rw [urlsafe_eq_nopad_append]
  exact rstrip_append_replicate _ _ (fun c hc => mem_nopad_ne _ c hc)
